import Mathlib

/-!
Shallow embedding of `src/app/python_ml_service.py` (class `CreditMLService`).

Conventions of the embedding:
* Python floats are modelled as exact rationals; Python ints as integers.
* Python `int(x)` truncates toward zero; it is modelled by `pyTrunc`.
* `np.random.randint(low, high)` is modelled by passing the sampled value
  `adj` as an explicit input; the call raises `ValueError: low >= high`
  exactly when the half-open interval `[low, high)` is empty, which for
  `randint(-variance, variance + 1)` happens exactly when `variance < 0`.
* The opaque classifier artifact is a `Model` record of oracles: the
  required `predict` and the optional, runtime-detected capabilities
  (`predict_proba` as an optional fallible function,
  `feature_importances` as an optional list, and the three introspection
  attributes); `hasattr` is `Option.isSome`.
* A raised-and-caught Python exception is an `Except.error` carrying the
  message `str(e)`.
* Python dicts built in source order are association lists.
-/

namespace CreditML

/-- Python `int()` applied to a rational: truncation toward zero. -/
def pyTrunc (q : ℚ) : ℤ := if 0 ≤ q then ⌊q⌋ else ⌈q⌉

/-- `self.feature_names` from `__init__`. -/
def feature_names : List String :=
  ["Outstanding_Debt", "Credit_Mix", "Credit_History_Age", "Monthly_Balance",
   "Payment_Behaviour", "Annual_Income", "Num_of_Delayed_Payment"]

/-- `self.credit_categories` from `__init__`: class id to label. -/
def credit_categories : List (ℤ × String) :=
  [(0, "Good"), (1, "Poor"), (2, "Standard")]

/-- The values `self.credit_categories[i]` for `i = 0, 1, 2`, in
enumeration order; used by the dict comprehension over
`enumerate(proba)` in `predict_credit_score`. -/
def credit_category_labels : List String := ["Good", "Poor", "Standard"]

/-- The opaque classifier artifact (`self.model` after a successful
load): required categorical prediction plus optional capabilities. -/
structure Model where
  typeName : String
  predict : List ℚ → Except String ℤ
  predict_proba : Option (List ℚ → Except String (List ℚ))
  feature_importances : Option (List ℚ)
  n_estimators : Option ℤ
  max_depth : Option ℤ
  random_state : Option ℤ

/-- `validate_features`: arity check, then the range checks in source
order, returning false at the first violation.  The five `let`s mirror
the positional tuple unpacking of the source (`monthly_balance` at index
3 and `payment_behaviour` at index 4 are unpacked but never checked). -/
def validate_features (features : List ℚ) : Bool :=
  if features.length ≠ 7 then false
  else
    let outstanding_debt := features.getD 0 0
    let credit_mix := features.getD 1 0
    let credit_history_age := features.getD 2 0
    let annual_income := features.getD 5 0
    let delayed_payments := features.getD 6 0
    if outstanding_debt < 0 then false
    else if ¬(credit_mix = 0 ∨ credit_mix = 1 ∨ credit_mix = 2) then false
    else if credit_history_age < 0 then false
    else if annual_income < 0 then false
    else if delayed_payments < 0 then false
    else true

/-- The `base_scores` dict of `convert_category_to_score`, read through
`base_scores.get(category, 650)`. -/
def base_scores (category : ℤ) : ℤ :=
  if category = 0 then 750
  else if category = 1 then 580
  else if category = 2 then 650
  else 650

/-- `variance = int((1 - confidence) * 50)` from
`convert_category_to_score`. -/
def score_variance (confidence : ℚ) : ℤ := pyTrunc ((1 - confidence) * 50)

/-- `convert_category_to_score(category, confidence)`, with the value
returned by `np.random.randint(-variance, variance + 1)` passed in as
`adj`; that call raises `ValueError: low >= high` exactly when
`variance < 0`, and otherwise the function returns
`max(300, min(850, base_score + adjustment))`. -/
def convert_category_to_score (category : ℤ) (confidence : ℚ) (adj : ℤ) :
    Except String ℤ :=
  let base_score := base_scores category
  let variance := score_variance confidence
  if variance < 0 then Except.error "low >= high"
  else Except.ok (max 300 (min 850 (base_score + adj)))

/-- The result dict of `predict_credit_score`.  The failure dict of the
source omits the last four keys entirely; an omitted key and a key bound
to `None` are both modelled as `none`. -/
structure PredictionResult where
  success : Bool
  error : Option String
  prediction_category : Option ℤ
  prediction_label : Option String
  credit_score_estimate : Option ℤ
  confidence : Option ℚ
  probabilities : Option (List (String × ℚ))
  feature_importance : Option (List (String × ℚ))
  model_type : Option String
  features_used : Option (List (String × ℚ))

/-- The failure dict built in the `except` handler of
`predict_credit_score`: `success=False`, the message `str(e)`, and null
prediction fields. -/
def failureResult (e : String) : PredictionResult :=
  { success := false
    error := some e
    prediction_category := none
    prediction_label := none
    credit_score_estimate := none
    confidence := none
    probabilities := none
    feature_importance := none
    model_type := none
    features_used := none }

/-- The probability block of `predict_credit_score`: starts from
`confidence = 0.85`, `probabilities = None`; if the model has
`predict_proba` it tries `proba = model.predict_proba(...)[0]`, then the
dict comprehension over `enumerate(proba)` that maps the label
`credit_categories[i]` to the probability at index `i`, then `confidence = float(max(proba))`, swallowing
any exception of the block:
* a raise inside `predict_proba` (or an empty outer array making `[0]`
  fail) leaves `(None, 0.85)`;
* a row longer than 3 hits `KeyError` inside the comprehension before
  `probabilities` is assigned, leaving `(None, 0.85)`;
* an empty row assigns the empty dict, then `max([])` raises, leaving
  `(some [], 0.85)`;
* otherwise the labelled row is assigned and the confidence is its
  maximum. -/
def probaStep (m : Model) (features : List ℚ) :
    Option (List (String × ℚ)) × ℚ :=
  match m.predict_proba with
  | none => (none, 17/20)
  | some predict_proba_fn =>
    match predict_proba_fn features with
    | Except.error _ => (none, 17/20)
    | Except.ok proba =>
      if proba.length ≤ 3 then
        match proba.max? with
        | none => (some [], 17/20)
        | some mx => (some (List.zip credit_category_labels proba), mx)
      else (none, 17/20)

/-- The feature-importance block of `predict_credit_score`: if the model
exposes `feature_importances_`, the dict comprehension over
`enumerate(importance)` mapping `feature_names[i]` to the weight at
index `i` is tried;
an importance vector longer than the 7 schema names hits `IndexError`,
which is swallowed, leaving `None`. -/
def importanceStep (m : Model) : Option (List (String × ℚ)) :=
  match m.feature_importances with
  | none => none
  | some importance =>
    if importance.length ≤ 7 then some (List.zip feature_names importance)
    else none

/-- The success dict of `predict_credit_score`, assembled after the
score conversion and the label lookup both succeeded. -/
def successResult (m : Model) (features : List ℚ) (prediction : ℤ)
    (label : String) (credit_score : ℤ) : PredictionResult :=
  { success := true
    error := none
    prediction_category := some prediction
    prediction_label := some label
    credit_score_estimate := some credit_score
    confidence := some (probaStep m features).2
    probabilities := (probaStep m features).1
    feature_importance := importanceStep m
    model_type := some m.typeName
    features_used := some (List.zip feature_names features) }

/-- `predict_credit_score(features)`: everything inside the `try` block,
with every raised exception routed to the `except` handler that builds
`failureResult`.  `model` is `self.model` (absent handle possible),
`adj` is the random adjustment sampled inside the score conversion.  The
raise points, in source order: the validation `ValueError`, the missing
model `RuntimeError`, a raise inside `model.predict` (or an empty
prediction array making `[0]` fail), the `ValueError` of the randint
call inside `convert_category_to_score`, and the `KeyError` of
`self.credit_categories[prediction]` (whose `str()` is the repr of the
key) while building the result dict. -/
def predict_credit_score (model : Option Model) (features : List ℚ)
    (adj : ℤ) : PredictionResult :=
  if validate_features features = true then
    match model with
    | none => failureResult "Model not loaded"
    | some m =>
      match m.predict features with
      | Except.error e => failureResult e
      | Except.ok prediction =>
        match convert_category_to_score prediction (probaStep m features).2 adj with
        | Except.error e => failureResult e
        | Except.ok credit_score =>
          match List.lookup prediction credit_categories with
          | none => failureResult (toString prediction)
          | some label => successResult m features prediction label credit_score
  else failureResult "Invalid features provided"

/-- Helper for `batch_predict`: the source loops over `features_list`
appending `predict_credit_score(features)`; the counter `i` numbers the
iterations so that each call can be given its own random adjustment
`adjs i`. -/
def batch_predict_from (model : Option Model) (adjs : ℕ → ℤ) :
    ℕ → List (List ℚ) → List PredictionResult
  | _, [] => []
  | i, features :: rest =>
    predict_credit_score model features (adjs i) ::
      batch_predict_from model adjs (i + 1) rest

/-- `batch_predict(features_list)`: one `predict_credit_score` per item,
results appended in input order. -/
def batch_predict (model : Option Model) (features_list : List (List ℚ))
    (adjs : ℕ → ℤ) : List PredictionResult :=
  batch_predict_from model adjs 0 features_list

/-- The filesystem and deserializer as seen by `load_model`:
whether `self.model_path.exists()`, and what `joblib.load` would return
for it (a model, or a raised exception with its message). -/
structure FileSystem where
  pathExists : Bool
  load : Except String Model

/-- The two construction-time failures: `FileNotFoundError` raised by
`load_model` itself when the path does not exist (named `ModelNotFound`
in the design document), and the re-raised underlying deserialization
failure (named `ModelLoadError` there), carrying its message. -/
inductive LoadFault where
  | modelNotFound (msg : String)
  | modelLoadError (msg : String)
deriving DecidableEq

/-- `load_model`: if the path exists, deserialize (any fault is printed
and re-raised); otherwise raise a `FileNotFoundError` whose message
interpolates the path. -/
def load_model (fs : FileSystem) (model_path : String) :
    Except LoadFault Model :=
  if fs.pathExists then
    match fs.load with
    | Except.ok m => Except.ok m
    | Except.error e => Except.error (LoadFault.modelLoadError e)
  else
    Except.error (LoadFault.modelNotFound ("Model file not found: " ++ model_path))

/-- The service object: `self.model_path` and `self.model`. -/
structure CreditMLService where
  model_path : String
  model : Option Model

/-- `__init__`: stores the path and calls `load_model`, so a load
failure propagates and no service object is produced. -/
def init_service (fs : FileSystem) (model_path : String) :
    Except LoadFault CreditMLService :=
  match load_model fs model_path with
  | Except.ok m => Except.ok { model_path := model_path, model := some m }
  | Except.error e => Except.error e

/-- The value types appearing in the dict returned by
`get_model_info`. -/
inductive InfoVal where
  | str (v : String)
  | strList (v : List String)
  | catMap (v : List (ℤ × String))
  | boolean (v : Bool)
  | int (v : ℤ)
deriving DecidableEq

/-- `get_model_info`: the error dict when the handle is absent,
otherwise the four unconditional keys in source order followed by each
optional attribute key exactly when `hasattr` holds for it. -/
def get_model_info (model : Option Model) : List (String × InfoVal) :=
  match model with
  | none => [("error", InfoVal.str "Model not loaded")]
  | some m =>
    [("model_type", InfoVal.str m.typeName),
     ("feature_names", InfoVal.strList feature_names),
     ("credit_categories", InfoVal.catMap credit_categories),
     ("model_loaded", InfoVal.boolean true)]
    ++ (match m.n_estimators with
        | some n => [("n_estimators", InfoVal.int n)]
        | none => [])
    ++ (match m.max_depth with
        | some d => [("max_depth", InfoVal.int d)]
        | none => [])
    ++ (match m.random_state with
        | some r => [("random_state", InfoVal.int r)]
        | none => [])

/-- A concrete classifier oracle with no optional capability, used to
instantiate hypotheses at a concrete input. -/
def testModel : Model :=
  { typeName := "RandomForestClassifier"
    predict := fun _ => Except.ok 0
    predict_proba := none
    feature_importances := none
    n_estimators := none
    max_depth := none
    random_state := none }

/-- A concrete classifier oracle exposing `predict_proba` with the
probability row `[1, 0, 0]`. -/
def testModelProba : Model :=
  { typeName := "RandomForestClassifier"
    predict := fun _ => Except.ok 0
    predict_proba := some (fun _ => Except.ok [1, 0, 0])
    feature_importances := none
    n_estimators := none
    max_depth := none
    random_state := none }

/-- A concrete classifier oracle that predicts the class id 5, outside
the category map. -/
def testModelBad : Model :=
  { typeName := "RandomForestClassifier"
    predict := fun _ => Except.ok 5
    predict_proba := none
    feature_importances := none
    n_estimators := none
    max_depth := none
    random_state := none }

end CreditML

namespace CreditML

lemma pyTrunc_of_nonneg {q : ℚ} (h : 0 ≤ q) : pyTrunc q = ⌊q⌋ := by
  simp [pyTrunc, h]

lemma pyTrunc_of_neg {q : ℚ} (h : q < 0) : pyTrunc q = ⌈q⌉ := by
  simp [pyTrunc, not_le.mpr h]

lemma score_variance_eq_floor {confidence : ℚ} (h : confidence ≤ 1) :
    score_variance confidence = ⌊(1 - confidence) * 50⌋ := by
  have hq : (0:ℚ) ≤ (1 - confidence) * 50 := by nlinarith
  simp [score_variance, pyTrunc_of_nonneg hq]

lemma score_variance_nonneg {confidence : ℚ} (h : confidence ≤ 1) :
    0 ≤ score_variance confidence := by
  rw [score_variance_eq_floor h]
  exact Int.floor_nonneg.mpr (by nlinarith)

lemma score_variance_le_50 {confidence : ℚ} (h : 0 ≤ confidence) (h1 : confidence ≤ 1) :
    score_variance confidence ≤ 50 := by
  rw [score_variance_eq_floor h1]
  have h50 : ((1:ℚ) - confidence) * 50 ≤ 50 := by nlinarith
  calc ⌊((1:ℚ) - confidence) * 50⌋ ≤ ⌊(50:ℚ)⌋ := Int.floor_le_floor h50
  _ = 50 := by simp

lemma convert_ok_of_nonneg {category : ℤ} {confidence : ℚ} (adj : ℤ)
    (h : 0 ≤ score_variance confidence) :
    convert_category_to_score category confidence adj =
      Except.ok (max 300 (min 850 (base_scores category + adj))) := by
  simp [convert_category_to_score, not_lt.mpr h]

lemma convert_error_of_neg {category : ℤ} {confidence : ℚ} (adj : ℤ)
    (h : score_variance confidence < 0) :
    convert_category_to_score category confidence adj = Except.error "low >= high" := by
  simp [convert_category_to_score, h]

lemma clamp_bounds (x : ℤ) :
    300 ≤ max 300 (min 850 x) ∧ max 300 (min 850 x) ≤ 850 :=
  ⟨le_max_left _ _, max_le (by norm_num) (min_le_left _ _)⟩

lemma convert_ok_bounds {category : ℤ} {confidence : ℚ} {adj s : ℤ}
    (h : convert_category_to_score category confidence adj = Except.ok s) :
    300 ≤ s ∧ s ≤ 850 := by
  by_cases hv : score_variance confidence < 0
  · rw [convert_error_of_neg adj hv] at h
    exact absurd h (by simp)
  · rw [convert_ok_of_nonneg adj (not_lt.mp hv)] at h
    injection h with h
    exact h ▸ clamp_bounds _

end CreditML

namespace CreditML

lemma probaStep_of_none {m : Model} (features : List ℚ)
    (h : m.predict_proba = none) : probaStep m features = (none, 17/20) := by
  simp [probaStep, h]

lemma probaStep_of_ok {m : Model} {predict_proba_fn} {proba : List ℚ}
    (features : List ℚ)
    (h : m.predict_proba = some predict_proba_fn)
    (hp : predict_proba_fn features = Except.ok proba)
    (a b c : ℚ) (hl : proba = [a, b, c]) :
    probaStep m features =
      (some (List.zip credit_category_labels proba), max (max a b) c) := by
  subst hl
  simp [probaStep, h, hp, List.max?, List.foldl]

lemma predict_shape (model : Option Model) (features : List ℚ) (adj : ℤ) :
    (∃ e, predict_credit_score model features adj = failureResult e) ∨
    (∃ m prediction label credit_score,
      model = some m ∧
      validate_features features = true ∧
      m.predict features = Except.ok prediction ∧
      convert_category_to_score prediction (probaStep m features).2 adj =
        Except.ok credit_score ∧
      List.lookup prediction credit_categories = some label ∧
      predict_credit_score model features adj =
        successResult m features prediction label credit_score) := by
  by_cases hv : validate_features features = true
  · cases model with
    | none => exact Or.inl ⟨"Model not loaded", by simp [predict_credit_score, hv]⟩
    | some m =>
      cases hp : m.predict features with
      | error e => exact Or.inl ⟨e, by simp [predict_credit_score, hv, hp]⟩
      | ok prediction =>
        cases hc : convert_category_to_score prediction (probaStep m features).2 adj with
        | error e => exact Or.inl ⟨e, by simp [predict_credit_score, hv, hp, hc]⟩
        | ok credit_score =>
          cases hl : List.lookup prediction credit_categories with
          | none =>
            exact Or.inl ⟨toString prediction, by simp [predict_credit_score, hv, hp, hc, hl]⟩
          | some label =>
            exact Or.inr ⟨m, prediction, label, credit_score, rfl, hv, hp, hc, hl,
              by simp [predict_credit_score, hv, hp, hc, hl]⟩
  · exact Or.inl ⟨"Invalid features provided", by simp [predict_credit_score, hv]⟩

lemma successResult_success (m : Model) (features : List ℚ) (prediction : ℤ)
    (label : String) (credit_score : ℤ) :
    (successResult m features prediction label credit_score).success = true := rfl

lemma failureResult_success (e : String) : (failureResult e).success = false := rfl

end CreditML

namespace CreditML

lemma score_variance_101 : score_variance (101/100) = 0 := by
  have harg : ((1:ℚ) - 101/100) * 50 = -(1/2) := by norm_num
  rw [score_variance, harg, pyTrunc_of_neg (by norm_num)]
  rw [Int.ceil_eq_iff] <;> norm_num

/-- Claim C1: for every category id and every confidence in the unit
interval, `convert_category_to_score` returns (for any sampled
adjustment) an integer in the closed interval 300 to 850; and every
success result of `predict_credit_score` has its credit score estimate
in that interval. -/
theorem credit_score_estimate_in_range (category : ℤ) (confidence : ℚ) (adj : ℤ)
    (h0 : 0 ≤ confidence) (h1 : confidence ≤ 1) :
    (∃ s, convert_category_to_score category confidence adj = Except.ok s ∧
       300 ≤ s ∧ s ≤ 850) ∧
    (∀ (model : Option Model) (features : List ℚ) (adj2 : ℤ) (s : ℤ),
       (predict_credit_score model features adj2).success = true →
       (predict_credit_score model features adj2).credit_score_estimate = some s →
       300 ≤ s ∧ s ≤ 850) := by
  constructor
  · exact ⟨max 300 (min 850 (base_scores category + adj)),
      convert_ok_of_nonneg adj (score_variance_nonneg h1), clamp_bounds _⟩
  · intro model features adj2 s hs hscore
    rcases predict_shape model features adj2 with ⟨e, he⟩ |
      ⟨m, p, label, cs, _, _, _, hc, _, hr⟩
    · rw [he, failureResult_success] at hs
      exact absurd hs (by simp)
    · rw [hr] at hscore
      have hcs : cs = s := by simpa [successResult] using hscore
      exact hcs ▸ convert_ok_bounds hc

/-- Witness for C1 at category 0, confidence 0, adjustment 0. -/
theorem credit_score_estimate_in_range_witness :
    0 ≤ (0:ℚ) ∧ (0:ℚ) ≤ 1 ∧
    (∃ s, convert_category_to_score 0 0 0 = Except.ok s ∧ 300 ≤ s ∧ s ≤ 850) :=
  ⟨le_refl 0, by norm_num,
    (credit_score_estimate_in_range 0 0 0 (le_refl 0) (by norm_num)).1⟩

/-- Claim C2: `predict_credit_score` never raises to its caller.  A
failed validation yields the failure object with the message of the
`ValueError`, an absent model handle yields the failure object with the
message of the `RuntimeError`, and on every failure path (success flag
false) the result is a failure object with an error string and all
prediction fields null. -/
theorem predict_never_raises (model : Option Model) (features : List ℚ) (adj : ℤ) :
    (validate_features features = false →
       predict_credit_score model features adj =
         failureResult "Invalid features provided") ∧
    (validate_features features = true → model = none →
       predict_credit_score model features adj = failureResult "Model not loaded") ∧
    ((predict_credit_score model features adj).success = false →
       ∃ e, predict_credit_score model features adj = failureResult e) ∧
    ((predict_credit_score model features adj).success = false →
       (predict_credit_score model features adj).error ≠ none ∧
       (predict_credit_score model features adj).prediction_category = none ∧
       (predict_credit_score model features adj).prediction_label = none ∧
       (predict_credit_score model features adj).credit_score_estimate = none ∧
       (predict_credit_score model features adj).confidence = none) := by
  refine ⟨?_, ?_, ?_, ?_⟩
  · intro hv
    simp [predict_credit_score, hv]
  · intro hv hm
    subst hm
    simp [predict_credit_score, hv]
  · intro hs
    rcases predict_shape model features adj with ⟨e, he⟩ |
      ⟨m, p, label, cs, _, _, _, _, _, hr⟩
    · exact ⟨e, he⟩
    · rw [hr, successResult_success] at hs
      exact absurd hs (by simp)
  · intro hs
    rcases predict_shape model features adj with ⟨e, he⟩ |
      ⟨m, p, label, cs, _, _, _, _, _, hr⟩
    · rw [he]
      simp [failureResult]
    · rw [hr, successResult_success] at hs
      exact absurd hs (by simp)

/-- Witness for C2 on the empty feature list. -/
theorem predict_never_raises_witness :
    validate_features [] = false ∧
    predict_credit_score none [] 0 = failureResult "Invalid features provided" :=
  ⟨by decide, (predict_never_raises none [] 0).1 (by decide)⟩

/-- Claim C3: `validate_features` returns true exactly when the list
has length 7, Outstanding_Debt is nonnegative, Credit_Mix is 0, 1 or 2,
Credit_History_Age is nonnegative, Annual_Income is nonnegative and
Num_of_Delayed_Payment is nonnegative; Monthly_Balance (index 3) and
Payment_Behaviour (index 4) are unconstrained. -/
theorem validate_features_spec (features : List ℚ) :
    validate_features features = true ↔
      (features.length = 7 ∧
       0 ≤ features.getD 0 0 ∧
       (features.getD 1 0 = 0 ∨ features.getD 1 0 = 1 ∨ features.getD 1 0 = 2) ∧
       0 ≤ features.getD 2 0 ∧
       0 ≤ features.getD 5 0 ∧
       0 ≤ features.getD 6 0) := by
  simp only [validate_features]
  split_ifs with h1 h2 h3 h4 h5 h6 <;> simp_all [not_lt]

/-- Counterexample to C5 as stated: at confidence 1.01 the code
computes `int((1 - confidence) * 50) = 0` (truncation toward zero)
while the floor claimed by the specification is -1; with the floor
value the random interval would be empty and the call would raise, yet
`convert_category_to_score` returns a score. -/
theorem score_variance_floor_counterexample :
    score_variance (101/100) = 0 ∧
    ⌊((1:ℚ) - 101/100) * 50⌋ = -1 ∧
    convert_category_to_score 0 (101/100) 0 = Except.ok 750 := by
  refine ⟨score_variance_101, ?_, ?_⟩
  · have harg : ((1:ℚ) - 101/100) * 50 = -(1/2) := by norm_num
    rw [harg, Int.floor_eq_iff] <;> norm_num
  · rw [convert_ok_of_nonneg 0 (le_of_eq score_variance_101.symm)]
    norm_num [base_scores]

/-- Claim C5 (amended): for confidence at most 1, the variance the
code computes is `floor((1 - confidence) * 50)` (there truncation
toward zero and floor agree), the base score is 750 for category 0, 580
for category 1, 650 for category 2 and 650 for any unrecognized
category, and for every adjustment in the closed interval from
`-variance` to `variance` the returned score is
`clamp(base + adjustment, 300, 850)`. -/
theorem convert_category_to_score_spec (category : ℤ) (confidence : ℚ) (adj : ℤ)
    (h1 : confidence ≤ 1)
    (hlo : -score_variance confidence ≤ adj)
    (hhi : adj ≤ score_variance confidence) :
    score_variance confidence = ⌊(1 - confidence) * 50⌋ ∧
    (category = 0 → base_scores category = 750) ∧
    (category = 1 → base_scores category = 580) ∧
    (category = 2 → base_scores category = 650) ∧
    (category ≠ 0 → category ≠ 1 → category ≠ 2 → base_scores category = 650) ∧
    convert_category_to_score category confidence adj =
      Except.ok (max 300 (min 850 (base_scores category + adj))) := by
  refine ⟨score_variance_eq_floor h1, ?_, ?_, ?_, ?_,
    convert_ok_of_nonneg adj (score_variance_nonneg h1)⟩
  · intro h
    simp [base_scores, h]
  · intro h
    simp [base_scores, h]
  · intro h
    simp [base_scores, h]
  · intro ha hb hc
    simp [base_scores, ha, hb, hc]

/-- Witness for the amended C5 at category 0, confidence 1,
adjustment 0. -/
theorem convert_category_to_score_spec_witness :
    (1:ℚ) ≤ 1 ∧ -score_variance 1 ≤ 0 ∧ (0:ℤ) ≤ score_variance 1 ∧
    convert_category_to_score 0 1 0 =
      Except.ok (max 300 (min 850 (base_scores 0 + 0))) := by
  have hv : score_variance (1:ℚ) = 0 := by norm_num [score_variance, pyTrunc]
  exact ⟨le_refl 1, by simp [hv], by simp [hv],
    (convert_category_to_score_spec 0 1 0 (le_refl 1) (by simp [hv])
      (by simp [hv])).2.2.2.2.2⟩

/-- Claim C9: if the classifier returns a class id outside 0, 1, 2 on
a valid input, `predict_credit_score` returns a failure result: the
score conversion falls back to base 650, but the label lookup in the
category map fails and the boundary handler produces the failure
object. -/
theorem predict_unknown_category_fails (m : Model) (features : List ℚ)
    (adj : ℤ) (c : ℤ)
    (hv : validate_features features = true)
    (hp : m.predict features = Except.ok c)
    (hc0 : c ≠ 0) (hc1 : c ≠ 1) (hc2 : c ≠ 2) :
    base_scores c = 650 ∧
    List.lookup c credit_categories = none ∧
    (predict_credit_score (some m) features adj).success = false := by
  have hlook : List.lookup c credit_categories = none := by
    have e0 : (c == (0:ℤ)) = false := beq_eq_false_iff_ne.mpr hc0
    have e1 : (c == (1:ℤ)) = false := beq_eq_false_iff_ne.mpr hc1
    have e2 : (c == (2:ℤ)) = false := beq_eq_false_iff_ne.mpr hc2
    simp [credit_categories, List.lookup, e0, e1, e2]
  refine ⟨by simp [base_scores, hc0, hc1, hc2], hlook, ?_⟩
  cases hc : convert_category_to_score c (probaStep m features).2 adj with
  | error e => simp [predict_credit_score, hv, hp, hc, failureResult]
  | ok s => simp [predict_credit_score, hv, hp, hc, hlook, failureResult]

/-- Witness for C9 with a classifier oracle that predicts class 5. -/
theorem predict_unknown_category_fails_witness :
    base_scores 5 = 650 ∧
    List.lookup (5:ℤ) credit_categories = none ∧
    (predict_credit_score (some testModelBad) [0,0,0,0,0,0,0] 0).success = false :=
  predict_unknown_category_fails testModelBad [0,0,0,0,0,0,0] 0 5 (by decide) rfl
    (by decide) (by decide) (by decide)

/-- Counterexample to C10 as stated: confidence 1.01 is strictly
greater than 1, yet `convert_category_to_score` succeeds, because
`int()` truncates -0.5 to 0, not to a negative variance. -/
theorem convert_above_one_counterexample :
    (1:ℚ) < 101/100 ∧
    convert_category_to_score 2 (101/100) 0 = Except.ok 650 := by
  refine ⟨by norm_num, ?_⟩
  rw [convert_ok_of_nonneg 0 (le_of_eq score_variance_101.symm)]
  norm_num [base_scores]

/-- Claim C10 (amended): `convert_category_to_score` is total for
every category whenever confidence lies in the unit interval, the
variance then lying between 0 and 50; the random draw raises exactly
when the variance is negative, which requires confidence at least 1.02;
for confidence strictly between 1 and 1.02 the truncated variance is 0
and the call still succeeds. -/
theorem convert_totality (category : ℤ) (confidence : ℚ) (adj : ℤ) :
    (0 ≤ confidence → confidence ≤ 1 →
       0 ≤ score_variance confidence ∧ score_variance confidence ≤ 50 ∧
       ∃ s, convert_category_to_score category confidence adj = Except.ok s) ∧
    (51/50 ≤ confidence →
       score_variance confidence < 0 ∧
       convert_category_to_score category confidence adj =
         Except.error "low >= high") ∧
    (1 < confidence → confidence < 51/50 →
       score_variance confidence = 0 ∧
       ∃ s, convert_category_to_score category confidence adj = Except.ok s) := by
  refine ⟨?_, ?_, ?_⟩
  · intro h0 h1
    exact ⟨score_variance_nonneg h1, score_variance_le_50 h0 h1,
      ⟨_, convert_ok_of_nonneg adj (score_variance_nonneg h1)⟩⟩
  · intro hc
    have hneg : ((1:ℚ) - confidence) * 50 < 0 := by nlinarith
    have hle : score_variance confidence ≤ -1 := by
      rw [score_variance, pyTrunc_of_neg hneg]
      refine Int.ceil_le.mpr ?_
      push_cast
      nlinarith
    have hneg2 : score_variance confidence < 0 := by omega
    exact ⟨hneg2, convert_error_of_neg adj hneg2⟩
  · intro hgt hlt
    have harg2 : ((1:ℚ) - confidence) * 50 < 0 := by nlinarith
    have hz : score_variance confidence = 0 := by
      rw [score_variance, pyTrunc_of_neg harg2]
      have hle : ⌈((1:ℚ) - confidence) * 50⌉ ≤ 0 := by
        refine Int.ceil_le.mpr ?_
        push_cast
        nlinarith
      have hge : (-1:ℤ) < ⌈((1:ℚ) - confidence) * 50⌉ := by
        refine Int.lt_ceil.mpr ?_
        push_cast
        nlinarith
      omega
    exact ⟨hz, ⟨_, convert_ok_of_nonneg adj (le_of_eq hz.symm)⟩⟩

/-- Witness for the amended C10 at category 1, confidence 0. -/
theorem convert_totality_witness :
    0 ≤ (0:ℚ) ∧ (0:ℚ) ≤ 1 ∧
    (0 ≤ score_variance 0 ∧ score_variance 0 ≤ 50 ∧
     ∃ s, convert_category_to_score 1 0 0 = Except.ok s) :=
  ⟨le_refl 0, by norm_num, (convert_totality 1 0 0).1 (le_refl 0) (by norm_num)⟩

end CreditML

namespace CreditML

lemma max3_mem (a b c : ℚ) : max (max a b) c ∈ [a, b, c] := by
  rcases max_choice (max a b) c with h | h <;> rw [h]
  · rcases max_choice a b with h2 | h2 <;> rw [h2] <;> simp
  · simp

lemma max3_ge (a b c : ℚ) : ∀ p ∈ [a, b, c], p ≤ max (max a b) c := by
  intro p hp
  simp only [List.mem_cons, List.not_mem_nil, or_false] at hp
  have h1 : a ≤ max (max a b) c := (le_max_left a b).trans (le_max_left _ c)
  have h2 : b ≤ max (max a b) c := (le_max_right a b).trans (le_max_left _ c)
  have h3 : c ≤ max (max a b) c := le_max_right _ c
  rcases hp with rfl | rfl | rfl
  · exact h1
  · exact h2
  · exact h3

/-- Claim C4: in a successful prediction, when the model lacks the
probability capability the confidence is exactly 0.85 and probabilities
are absent; when probability estimation succeeds with one probability
per class, the probabilities field maps each category label to its
probability in category-map order and the confidence is the maximum of
the three probabilities. -/
theorem predict_confidence_spec (m : Model) (features : List ℚ) (adj : ℤ)
    (hs : (predict_credit_score (some m) features adj).success = true) :
    (m.predict_proba = none →
       (predict_credit_score (some m) features adj).confidence = some (17/20) ∧
       (predict_credit_score (some m) features adj).probabilities = none) ∧
    (∀ predict_proba_fn (a b c : ℚ),
       m.predict_proba = some predict_proba_fn →
       predict_proba_fn features = Except.ok [a, b, c] →
       (predict_credit_score (some m) features adj).probabilities =
         some [("Good", a), ("Poor", b), ("Standard", c)] ∧
       (predict_credit_score (some m) features adj).confidence =
         some (max (max a b) c) ∧
       max (max a b) c ∈ [a, b, c] ∧
       ∀ p ∈ [a, b, c], p ≤ max (max a b) c) := by
  rcases predict_shape (some m) features adj with ⟨e, he⟩ |
    ⟨m2, p, label, cs, hm2, _, _, _, _, hr⟩
  · rw [he, failureResult_success] at hs
    exact absurd hs (by simp)
  · injection hm2 with hm2
    subst hm2
    constructor
    · intro hnone
      rw [hr]
      simp [successResult, probaStep_of_none features hnone]
    · intro predict_proba_fn a b c hf hfp
      have hps := probaStep_of_ok features hf hfp a b c rfl
      have hzip : List.zip credit_category_labels [a, b, c] =
          [("Good", a), ("Poor", b), ("Standard", c)] := rfl
      rw [hr]
      refine ⟨?_, ?_, max3_mem a b c, max3_ge a b c⟩
      · simp [successResult, hps, hzip]
      · simp [successResult, hps]

/-- Witness for C4 with a classifier oracle exposing the probability
row 1, 0, 0. -/
theorem predict_confidence_spec_witness :
    (predict_credit_score (some testModelProba) [0,0,0,0,0,0,0] 0).success = true ∧
    (predict_credit_score (some testModelProba) [0,0,0,0,0,0,0] 0).probabilities =
      some [("Good", 1), ("Poor", 0), ("Standard", 0)] ∧
    (predict_credit_score (some testModelProba) [0,0,0,0,0,0,0] 0).confidence =
      some (max (max 1 0) 0) := by
  have hval : validate_features [0,0,0,0,0,0,0] = true := by decide
  have hf : testModelProba.predict_proba =
      some (fun _ => (Except.ok [1, 0, 0] : Except String (List ℚ))) := rfl
  have hfp : (fun _ => (Except.ok [1, 0, 0] : Except String (List ℚ))) [0,0,0,0,0,0,0] =
      Except.ok [1, 0, 0] := rfl
  have hps : probaStep testModelProba [0,0,0,0,0,0,0] =
      (some (List.zip credit_category_labels [1, 0, 0]), max (max 1 0) 0) :=
    probaStep_of_ok [0,0,0,0,0,0,0] hf hfp 1 0 0 rfl
  have hmax : max (max (1:ℚ) 0) 0 = 1 := by norm_num [max_def]
  have hp2 : (probaStep testModelProba [0,0,0,0,0,0,0]).2 = 1 := by
    rw [hps]
    exact hmax
  have hsvar : score_variance (1:ℚ) = 0 := by norm_num [score_variance, pyTrunc]
  have hconv : convert_category_to_score 0 1 0 = Except.ok 750 := by
    rw [convert_ok_of_nonneg 0 (le_of_eq hsvar.symm)]
    norm_num [base_scores]
  have hpredict : testModelProba.predict [0,0,0,0,0,0,0] = Except.ok 0 := rfl
  have hpred : predict_credit_score (some testModelProba) [0,0,0,0,0,0,0] 0 =
      successResult testModelProba [0,0,0,0,0,0,0] 0 "Good" 750 := by
    simp [predict_credit_score, hval, hpredict, hp2, hconv, credit_categories,
      List.lookup]
  have hs : (predict_credit_score (some testModelProba) [0,0,0,0,0,0,0] 0).success = true := by
    rw [hpred]
    rfl
  have H := predict_confidence_spec testModelProba [0,0,0,0,0,0,0] 0 hs
  exact ⟨hs, (H.2 _ 1 0 0 rfl rfl).1, (H.2 _ 1 0 0 rfl rfl).2.1⟩

lemma batch_predict_from_length (model : Option Model) (adjs : ℕ → ℤ)
    (fl : List (List ℚ)) :
    ∀ n, (batch_predict_from model adjs n fl).length = fl.length := by
  induction fl with
  | nil => intro n; rfl
  | cons f rest ih =>
    intro n
    simp [batch_predict_from, ih (n + 1)]

lemma batch_predict_from_getElem (model : Option Model) (adjs : ℕ → ℤ)
    (fl : List (List ℚ)) :
    ∀ n i, i < fl.length →
      (batch_predict_from model adjs n fl)[i]? =
        some (predict_credit_score model (fl.getD i []) (adjs (n + i))) := by
  induction fl with
  | nil =>
    intro n i h
    simp at h
  | cons f rest ih =>
    intro n i h
    cases i with
    | zero => simp [batch_predict_from]
    | succ j =>
      have hj : j < rest.length := by simpa using h
      have heq : n + (j + 1) = (n + 1) + j := by omega
      simp only [batch_predict_from, List.getElem?_cons_succ, List.getD_cons_succ, heq]
      exact ih (n + 1) j hj

/-- Claim C6: `batch_predict` returns one result per input, in input
order, the result at each index being exactly `predict_credit_score` of
the input at that index (with that call sampling its own adjustment);
in particular an invalid item yields a failure result at its own
position and aborts nothing. -/
theorem batch_predict_spec (model : Option Model)
    (features_list : List (List ℚ)) (adjs : ℕ → ℤ) :
    (batch_predict model features_list adjs).length = features_list.length ∧
    (∀ i, i < features_list.length →
      (batch_predict model features_list adjs)[i]? =
        some (predict_credit_score model (features_list.getD i []) (adjs i))) ∧
    (∀ k, k < features_list.length →
      validate_features (features_list.getD k []) = false →
      (batch_predict model features_list adjs)[k]? =
        some (failureResult "Invalid features provided")) := by
  refine ⟨batch_predict_from_length model adjs features_list 0, ?_, ?_⟩
  · intro i h
    have := batch_predict_from_getElem model adjs features_list 0 i h
    simpa [batch_predict] using this
  · intro k h hval
    have h1 := batch_predict_from_getElem model adjs features_list 0 k h
    have h2 : ∀ fs : List ℚ, validate_features fs = false →
        predict_credit_score model fs (adjs (0 + k)) =
          failureResult "Invalid features provided" := by
      intro fs hv
      simp [predict_credit_score, hv]
    rw [batch_predict, h1, h2 _ hval]

/-- Witness for C6 on a two-element batch of invalid items. -/
theorem batch_predict_spec_witness :
    (batch_predict none [[1], [1]] (fun _ => 0)).length = 2 ∧
    (batch_predict none [[1], [1]] (fun _ => 0))[1]? =
      some (failureResult "Invalid features provided") := by
  have H := batch_predict_spec none [[1], [1]] (fun _ => 0)
  exact ⟨H.1, H.2.2 1 (by norm_num) (by decide)⟩

/-- Claim C7: `load_model` fails with the file-not-found fault
exactly when the path does not resolve to an existing file, fails with
the load fault carrying the underlying deserialization failure on any
other load fault, succeeds otherwise, and a load failure propagates out
of construction, so no service object with an absent handle is ever
produced by construction. -/
theorem load_model_spec (fs : FileSystem) (model_path : String) :
    ((∃ msg, load_model fs model_path = Except.error (LoadFault.modelNotFound msg)) ↔
       fs.pathExists = false) ∧
    (fs.pathExists = false →
       load_model fs model_path =
         Except.error (LoadFault.modelNotFound ("Model file not found: " ++ model_path))) ∧
    (∀ e, fs.pathExists = true → fs.load = Except.error e →
       load_model fs model_path = Except.error (LoadFault.modelLoadError e)) ∧
    (∀ m, fs.pathExists = true → fs.load = Except.ok m →
       load_model fs model_path = Except.ok m) ∧
    (∀ e, load_model fs model_path = Except.error e →
       init_service fs model_path = Except.error e) ∧
    (∀ s, init_service fs model_path = Except.ok s → s.model ≠ none) := by
  refine ⟨?_, ?_, ?_, ?_, ?_, ?_⟩
  · constructor
    · rintro ⟨msg, hmsg⟩
      by_contra hne
      have hex : fs.pathExists = true := by simpa using hne
      cases hload : fs.load with
      | ok m => simp [load_model, hex, hload] at hmsg
      | error e => simp [load_model, hex, hload] at hmsg
    · intro hex
      exact ⟨"Model file not found: " ++ model_path, by simp [load_model, hex]⟩
  · intro hex
    simp [load_model, hex]
  · intro e hex hload
    simp [load_model, hex, hload]
  · intro m hex hload
    simp [load_model, hex, hload]
  · intro e herr
    simp [init_service, herr]
  · intro s hs
    unfold init_service at hs
    cases hload : load_model fs model_path with
    | ok m =>
      rw [hload] at hs
      injection hs with hs
      rw [← hs]
      simp
    | error e =>
      rw [hload] at hs
      exact absurd hs (by simp)

/-- Witness for C7 on a filesystem without the model file. -/
theorem load_model_spec_witness :
    (FileSystem.mk false (Except.ok testModel)).pathExists = false ∧
    load_model (FileSystem.mk false (Except.ok testModel)) "models/credit_classifier.joblib" =
      Except.error (LoadFault.modelNotFound
        ("Model file not found: " ++ "models/credit_classifier.joblib")) :=
  ⟨rfl, (load_model_spec (FileSystem.mk false (Except.ok testModel))
      "models/credit_classifier.joblib").2.1 rfl⟩

/-- Claim C8: `get_model_info` returns exactly the error dict when
the handle is absent; otherwise the dict carries the runtime type name,
the feature schema, the category map and a loaded flag set to true, and
each of the keys n_estimators, max_depth and random_state is present
exactly when the model exposes that attribute, independently of the
others, bound to its value. -/
theorem get_model_info_spec (model : Option Model) :
    (model = none →
       get_model_info model = [("error", InfoVal.str "Model not loaded")]) ∧
    (∀ m, model = some m →
       List.lookup "model_type" (get_model_info model) =
         some (InfoVal.str m.typeName) ∧
       List.lookup "feature_names" (get_model_info model) =
         some (InfoVal.strList feature_names) ∧
       List.lookup "credit_categories" (get_model_info model) =
         some (InfoVal.catMap credit_categories) ∧
       List.lookup "model_loaded" (get_model_info model) =
         some (InfoVal.boolean true) ∧
       List.lookup "n_estimators" (get_model_info model) =
         Option.map InfoVal.int m.n_estimators ∧
       List.lookup "max_depth" (get_model_info model) =
         Option.map InfoVal.int m.max_depth ∧
       List.lookup "random_state" (get_model_info model) =
         Option.map InfoVal.int m.random_state) := by
  refine ⟨?_, ?_⟩
  · rintro rfl
    rfl
  · rintro m rfl
    cases hne : m.n_estimators <;> cases hmd : m.max_depth <;>
      cases hrs : m.random_state <;>
      refine ⟨?_, ?_, ?_, ?_, ?_, ?_, ?_⟩ <;>
      simp [get_model_info, hne, hmd, hrs, List.lookup]

/-- Witness for C8 on a concrete model with no optional
attribute. -/
theorem get_model_info_spec_witness :
    List.lookup "model_type" (get_model_info (some testModel)) =
      some (InfoVal.str testModel.typeName) ∧
    List.lookup "n_estimators" (get_model_info (some testModel)) =
      Option.map InfoVal.int testModel.n_estimators :=
  ⟨((get_model_info_spec (some testModel)).2 testModel rfl).1,
   ((get_model_info_spec (some testModel)).2 testModel rfl).2.2.2.2.1⟩

end CreditML
